import Mathlib

/-!
Verification development for the tglens Telegram-export analytics core.

The definitions below are a shallow embedding of the repository's
loader/normalizer (`src/data_loader.py`, class `TelegramDataLoader`) and
aggregation utilities (`src/utils.py`).  Parsed JSON documents are modelled
by the inductive type `JVal`; Python `None` is `JVal.jnull`, and pandas
NA/NaN cells arising from `None` values are likewise modelled by `jnull`.
Timestamps are modelled as seconds since the Unix epoch (a natural number;
the Telegram export format `YYYY-MM-DDTHH:MM:SS` never predates 1970).
`pd.to_datetime` on one cell is modelled three-valued: a well-formed
timestamp parses, the empty string (and `None`, and the `"NaT"` spelling)
converts to NaT without raising, and any other string raises, failing the
whole-column conversion.
-/

/-- A parsed JSON value, as produced by `json.load`. -/
inductive JVal where
  | jnull
  | jbool (b : Bool)
  | jnum (n : Int)
  | jstr (s : String)
  | jlist (xs : List JVal)
  | jobj (fields : List (String × JVal))
  deriving Repr

mutual

/-- Structural decidable equality for `JVal` (models Python `==` on parsed
JSON values). -/
def JVal.decEq : (a b : JVal) → Decidable (a = b)
  | .jnull, .jnull => isTrue rfl
  | .jbool a, .jbool b =>
    if h : a = b then isTrue (by rw [h]) else isFalse (fun he => h (by cases he; rfl))
  | .jnum a, .jnum b =>
    if h : a = b then isTrue (by rw [h]) else isFalse (fun he => h (by cases he; rfl))
  | .jstr a, .jstr b =>
    if h : a = b then isTrue (by rw [h]) else isFalse (fun he => h (by cases he; rfl))
  | .jlist xs, .jlist ys =>
    match JVal.decEqList xs ys with
    | isTrue h => isTrue (by rw [h])
    | isFalse h => isFalse (fun he => h (by injection he))
  | .jobj xs, .jobj ys =>
    match JVal.decEqObj xs ys with
    | isTrue h => isTrue (by rw [h])
    | isFalse h => isFalse (fun he => h (by injection he))
  | .jnull, .jbool _ => isFalse (fun h => JVal.noConfusion h)
  | .jnull, .jnum _ => isFalse (fun h => JVal.noConfusion h)
  | .jnull, .jstr _ => isFalse (fun h => JVal.noConfusion h)
  | .jnull, .jlist _ => isFalse (fun h => JVal.noConfusion h)
  | .jnull, .jobj _ => isFalse (fun h => JVal.noConfusion h)
  | .jbool _, .jnull => isFalse (fun h => JVal.noConfusion h)
  | .jbool _, .jnum _ => isFalse (fun h => JVal.noConfusion h)
  | .jbool _, .jstr _ => isFalse (fun h => JVal.noConfusion h)
  | .jbool _, .jlist _ => isFalse (fun h => JVal.noConfusion h)
  | .jbool _, .jobj _ => isFalse (fun h => JVal.noConfusion h)
  | .jnum _, .jnull => isFalse (fun h => JVal.noConfusion h)
  | .jnum _, .jbool _ => isFalse (fun h => JVal.noConfusion h)
  | .jnum _, .jstr _ => isFalse (fun h => JVal.noConfusion h)
  | .jnum _, .jlist _ => isFalse (fun h => JVal.noConfusion h)
  | .jnum _, .jobj _ => isFalse (fun h => JVal.noConfusion h)
  | .jstr _, .jnull => isFalse (fun h => JVal.noConfusion h)
  | .jstr _, .jbool _ => isFalse (fun h => JVal.noConfusion h)
  | .jstr _, .jnum _ => isFalse (fun h => JVal.noConfusion h)
  | .jstr _, .jlist _ => isFalse (fun h => JVal.noConfusion h)
  | .jstr _, .jobj _ => isFalse (fun h => JVal.noConfusion h)
  | .jlist _, .jnull => isFalse (fun h => JVal.noConfusion h)
  | .jlist _, .jbool _ => isFalse (fun h => JVal.noConfusion h)
  | .jlist _, .jnum _ => isFalse (fun h => JVal.noConfusion h)
  | .jlist _, .jstr _ => isFalse (fun h => JVal.noConfusion h)
  | .jlist _, .jobj _ => isFalse (fun h => JVal.noConfusion h)
  | .jobj _, .jnull => isFalse (fun h => JVal.noConfusion h)
  | .jobj _, .jbool _ => isFalse (fun h => JVal.noConfusion h)
  | .jobj _, .jnum _ => isFalse (fun h => JVal.noConfusion h)
  | .jobj _, .jstr _ => isFalse (fun h => JVal.noConfusion h)
  | .jobj _, .jlist _ => isFalse (fun h => JVal.noConfusion h)

def JVal.decEqList : (xs ys : List JVal) → Decidable (xs = ys)
  | [], [] => isTrue rfl
  | [], _ :: _ => isFalse (fun h => List.noConfusion h)
  | _ :: _, [] => isFalse (fun h => List.noConfusion h)
  | x :: xs, y :: ys =>
    match JVal.decEq x y, JVal.decEqList xs ys with
    | isTrue h1, isTrue h2 => isTrue (by rw [h1, h2])
    | isFalse h1, _ => isFalse (fun he => h1 (by injection he))
    | _, isFalse h2 => isFalse (fun he => h2 (by injection he))

def JVal.decEqObj : (xs ys : List (String × JVal)) → Decidable (xs = ys)
  | [], [] => isTrue rfl
  | [], _ :: _ => isFalse (fun h => List.noConfusion h)
  | _ :: _, [] => isFalse (fun h => List.noConfusion h)
  | (k1, v1) :: xs, (k2, v2) :: ys =>
    match String.decEq k1 k2, JVal.decEq v1 v2, JVal.decEqObj xs ys with
    | isTrue hk, isTrue h1, isTrue h2 => isTrue (by rw [hk, h1, h2])
    | isFalse hk, _, _ => isFalse (fun he => hk (by injection he with hp hl; injection hp))
    | _, isFalse h1, _ => isFalse (fun he => h1 (by injection he with hp hl; injection hp))
    | _, _, isFalse h2 => isFalse (fun he => h2 (by injection he))
end

instance : DecidableEq JVal := JVal.decEq

/-- First binding of a key in a JSON object's field list (JSON objects have
unique keys, so this is dictionary lookup). -/
def lookupField (fields : List (String × JVal)) (key : String) : Option JVal :=
  match fields with
  | [] => none
  | (k, v) :: rest => if k = key then some v else lookupField rest key

/-- Python `dict.get(key, default)` on a JSON object's fields. -/
def objGetD (fields : List (String × JVal)) (key : String) (dflt : JVal) : JVal :=
  (lookupField fields key).getD dflt

/-- Python `.get(key, default)`: `none` models the `AttributeError` raised
when the receiver is not a dict. -/
def dictGet (v : JVal) (key : String) (dflt : JVal) : Option JVal :=
  match v with
  | .jobj fields => some (objGetD fields key dflt)
  | _ => none

/-- Python truthiness test `not value` on a parsed JSON value
(`data_loader.py` line 39, `if not self.raw_data`). -/
def jFalsy : JVal → Bool
  | .jnull => true
  | .jbool b => !b
  | .jnum n => n == 0
  | .jstr s => s == ""
  | .jlist xs => xs.isEmpty
  | .jobj fields => fields.isEmpty

/-- Concatenation of the parts collected by the list branch of
`_extract_text_content` followed by `"".join`: plain strings are kept,
dicts contribute their `"text"` value, everything else is skipped.
`none` models the `TypeError` that `"".join` raises when a collected
`"text"` value is not a string. -/
def joinTextParts : List JVal → Option String
  | [] => some ""
  | item :: rest =>
    match joinTextParts rest with
    | none => none
    | some tail =>
      match item with
      | .jstr s => some (s ++ tail)
      | .jobj fields =>
        match lookupField fields "text" with
        | some (.jstr s) => some (s ++ tail)
        | some _ => none
        | none => some tail
      | _ => some tail

/-- `TelegramDataLoader._extract_text_content` (`data_loader.py` lines
112-130).  `none` models an exception escaping the call; the dict branch
returns `text_field["text"]` unchecked, which is only a string in
well-typed exports, so a non-string `"text"` value is likewise modelled as
a failure. -/
def extract_text_content : JVal → Option String
  | .jstr s => some s
  | .jlist items => joinTextParts items
  | .jobj fields =>
    match lookupField fields "text" with
    | some (.jstr s) => some s
    | some _ => none
    | none => some ""
  | _ => some ""

/-- One normalized message record: the `message_data` dict built in
`TelegramDataLoader.extract_messages` (`data_loader.py` lines 60-82).
Fields keep their raw JSON values; `jnull` is Python `None`. -/
structure MessageRecord where
  chat_id : JVal
  chat_name : JVal
  chat_type : JVal
  message_id : JVal
  from_ : JVal
  from_id : JVal
  actor : JVal
  actor_id : JVal
  date : JVal
  date_unixtime : JVal
  text : String
  text_length : Nat
  msg_type : JVal
  action : JVal
  reply_to_message_id : JVal
  forwarded_from : JVal
  media_type : JVal
  file : JVal
  width : JVal
  height : JVal
  duration_seconds : JVal
  deriving Repr, DecidableEq

/-- The body of the inner message loop of `extract_messages`
(`data_loader.py` lines 56-83): build one `message_data` record from a
message entry, with the defined default for every missing field.  `none`
models an exception (non-dict message entry, or a failing text
extraction). -/
def buildMessageData (chat_id chat_name chat_type : JVal) (msg : JVal) :
    Option MessageRecord :=
  match msg with
  | .jobj fields =>
    match extract_text_content (objGetD fields "text" (.jstr "")) with
    | none => none
    | some text_content =>
      some
        { chat_id := chat_id
          chat_name := chat_name
          chat_type := chat_type
          message_id := objGetD fields "id" (.jnum 0)
          from_ := objGetD fields "from" (.jstr "Unknown")
          from_id := objGetD fields "from_id" (.jstr "")
          actor := objGetD fields "actor" .jnull
          actor_id := objGetD fields "actor_id" .jnull
          date := objGetD fields "date" (.jstr "")
          date_unixtime := objGetD fields "date_unixtime" (.jnum 0)
          text := text_content
          text_length := text_content.length
          msg_type := objGetD fields "type" (.jstr "message")
          action := objGetD fields "action" .jnull
          reply_to_message_id := objGetD fields "reply_to_message_id" .jnull
          forwarded_from := objGetD fields "forwarded_from" .jnull
          media_type := objGetD fields "media_type" .jnull
          file := objGetD fields "file" .jnull
          width := objGetD fields "width" .jnull
          height := objGetD fields "height" .jnull
          duration_seconds := objGetD fields "duration_seconds" .jnull }
  | _ => none

/-- Process the messages of one chat whose type passed the filter
(the inner `for message in messages` loop). -/
def processMessages (chat_id chat_name chat_type : JVal) :
    List JVal → Option (List MessageRecord)
  | [] => some []
  | msg :: rest =>
    match buildMessageData chat_id chat_name chat_type msg with
    | none => none
    | some rec0 =>
      match processMessages chat_id chat_name chat_type rest with
      | none => none
      | some recs => some (rec0 :: recs)

/-- The `for chat in chats` loop of `extract_messages` (`data_loader.py`
lines 46-83).  A chat whose `type` is neither `"personal_chat"` nor
`"saved_messages"` is skipped (`continue`, lines 51-53).  `none` models an
exception (non-dict chat entry, or a non-list `messages` value). -/
def processChats : List JVal → Option (List MessageRecord)
  | [] => some []
  | chat :: rest =>
    match chat with
    | .jobj fields =>
      if objGetD fields "type" (.jstr "unknown") = .jstr "personal_chat"
          ∨ objGetD fields "type" (.jstr "unknown") = .jstr "saved_messages" then
        match objGetD fields "messages" (.jlist []) with
        | .jlist msgs =>
          match processMessages (objGetD fields "id" (.jnum 0))
              (objGetD fields "name" (.jstr "Saved Messages"))
              (objGetD fields "type" (.jstr "unknown")) msgs with
          | none => none
          | some recs =>
            match processChats rest with
            | none => none
            | some recs2 => some (recs ++ recs2)
        | _ => none
      else
        processChats rest
    | _ => none

/-- Gregorian leap-year test. -/
def isLeap (y : Nat) : Bool := (y % 4 == 0 && y % 100 != 0) || (y % 400 == 0)

/-- Month lengths for a (non-)leap year, January first. -/
def monthLengths (leap : Bool) : List Nat :=
  [31, if leap then 29 else 28, 31, 30, 31, 30, 31, 31, 30, 31, 30, 31]

/-- Length of month `m` (1-based). -/
def monthLen (leap : Bool) (m : Nat) : Nat := (monthLengths leap).getD (m - 1) 0

/-- Number of leap years in `[1..y]`. -/
def leapsThrough (y : Nat) : Nat := y / 4 - y / 100 + y / 400

/-- Days from 1970-01-01 to the civil date `y-m-d` (requires `y ≥ 1970`). -/
def daysFrom1970 (y m d : Nat) : Nat :=
  365 * (y - 1970) + (leapsThrough (y - 1) - leapsThrough 1969)
    + ((monthLengths (isLeap y)).take (m - 1)).sum + (d - 1)

/-- Split a character list on a separator character (the behavior of
`str.split(sep)` for a one-character separator). -/
def splitOnChar (sep : Char) : List Char → List (List Char)
  | [] => [[]]
  | c :: rest =>
    let r := splitOnChar sep rest
    if c = sep then [] :: r
    else
      match r with
      | [] => [[c]]
      | w :: ws => (c :: w) :: ws

/-- Read a non-empty all-digit character list as a natural number. -/
def digitsToNatGo : List Char → Nat → Option Nat
  | [], acc => some acc
  | c :: rest, acc =>
    if c.isDigit then digitsToNatGo rest (acc * 10 + (c.toNat - 48)) else none

/-- `int(...)` on a digit string; `none` if empty or not all digits. -/
def digitsToNat (l : List Char) : Option Nat :=
  if l.isEmpty then none else digitsToNatGo l 0

/-- Strict parser for the Telegram export timestamp format
`YYYY-MM-DDTHH:MM:SS`, returning seconds since the Unix epoch; `none`
when the string is not of this shape (or encodes an invalid or pre-1970
calendar date).  Whether a non-parsing string raises or converts to NaT
is decided by `toDatetimeCell` below, which models the
`pd.to_datetime` cell conversion. -/
def parseIsoDatetime (s : String) : Option Nat :=
  match splitOnChar 'T' s.data with
  | [ds, ts] =>
    match splitOnChar '-' ds, splitOnChar ':' ts with
    | [ys, ms, dds], [hs, mins, ss] =>
      if ys.length = 4 ∧ ms.length = 2 ∧ dds.length = 2 ∧
          hs.length = 2 ∧ mins.length = 2 ∧ ss.length = 2 then
        match digitsToNat ys, digitsToNat ms, digitsToNat dds,
            digitsToNat hs, digitsToNat mins, digitsToNat ss with
        | some y, some m, some d, some h, some mi, some sec =>
          if 1970 ≤ y ∧ 1 ≤ m ∧ m ≤ 12 ∧ 1 ≤ d ∧ d ≤ monthLen (isLeap y) m ∧
              h < 24 ∧ mi < 60 ∧ sec < 60 then
            some (daysFrom1970 y m d * 86400 + h * 3600 + mi * 60 + sec)
          else none
        | _, _, _, _, _, _ => none
      else none
    | _, _ => none
  | _ => none

/-- One cell of the whole-column `pd.to_datetime` conversion
(`data_loader.py` line 93).  A well-formed timestamp string parses to its
epoch value (`some (some t)`).  A zero-length string — the loader's
default for a missing `date` field (line 69) — and the canonical `"NaT"`
spelling, as well as a `None` cell, convert to NaT (`some none`)
*without raising*.  Any other string raises `ValueError` (`none`),
failing the whole conversion.  (pandas recognizes a few more NaT-like
spellings such as `"nan"`; the loader-reachable missing-date case is the
empty string.)  A non-string, non-null cell is outside the modelled
input space and treated as a raise. -/
def toDatetimeCell : JVal → Option (Option Nat)
  | .jstr s =>
    if s = "" ∨ s = "NaT" then some none
    else
      match parseIsoDatetime s with
      | some t => some (some t)
      | none => none
  | .jnull => some none
  | _ => none

/-- A row of an in-memory record set whose timestamp is non-null: the
shape the aggregation functions consume (their properties below are
stated over frames of such rows).  The derived calendar columns added at
`data_loader.py` lines 96-104 (`date_only`, `hour`, `weekday`, ...) are
deterministic functions of `datetime` and are modelled as the accessor
functions `date_only`, `hourOf`, `weekdayOf` below. -/
structure Row where
  record : MessageRecord
  datetime : Nat
  deriving Repr, DecidableEq

/-- A record set of rows with non-null timestamps.  `extraCols` tracks
columns added to the frame after normalization (used to observe in-place
column assignments by the aggregation functions). -/
structure DataFrame where
  rows : List Row
  extraCols : List String
  deriving Repr, DecidableEq

/-- A row as produced by the loader: the raw record plus the converted
`datetime` cell, which may be NaT (`none`) when the `date` field was
missing or empty. -/
structure NRow where
  record : MessageRecord
  datetime : Option Nat
  deriving Repr, DecidableEq

/-- The loader's normalized messages table; its rows may carry NaT
timestamps. -/
structure NDataFrame where
  rows : List NRow
  extraCols : List String
  deriving Repr, DecidableEq

/-- `pd.to_datetime(self.messages_df["date"])` (`data_loader.py` line 93):
the whole column converts at once, so one entry that raises fails the
whole conversion, while NaT entries convert successfully. -/
def buildRows : List MessageRecord → Option (List NRow)
  | [] => some []
  | r :: rest =>
    match toDatetimeCell r.date, buildRows rest with
    | some t, some rows => some (⟨r, t⟩ :: rows)
    | _, _ => none

/-- The three `return None` paths of `TelegramDataLoader.extract_messages`:
`noData` is the silent return for falsy `raw_data` (line 40), `noMessages`
is the "No messages found" error (lines 85-87), `structural` is the
exception handler "Error extracting messages" (lines 108-110). -/
inductive ExtractError where
  | noData
  | structural
  | noMessages
  deriving Repr, DecidableEq

/-- `TelegramDataLoader.extract_messages` (`data_loader.py` lines 35-110),
with the three failure exits tagged.  A non-list `"list"` or `"messages"`
value is modelled as a structural failure (iterating such a value either
raises or contributes no record and ends in the empty-result error). -/
def extract_messagesE (raw : JVal) : Except ExtractError NDataFrame :=
  if jFalsy raw then .error .noData
  else
    match dictGet raw "chats" (.jobj []) with
    | none => .error .structural
    | some chatsVal =>
      match dictGet chatsVal "list" (.jlist []) with
      | none => .error .structural
      | some (.jlist chats) =>
        match processChats chats with
        | none => .error .structural
        | some recs =>
          if recs.isEmpty then .error .noMessages
          else
            match buildRows recs with
            | none => .error .structural
            | some rows => .ok { rows := rows, extraCols := [] }
      | some _ => .error .structural

/-- `extract_messages` as seen by callers: `None` on every failure path. -/
def extract_messages (raw : JVal) : Option NDataFrame :=
  (extract_messagesE raw).toOption

/-- `datetime.dt.date`, as days since the epoch. -/
def date_only (t : Nat) : Nat := t / 86400

/-- `datetime.dt.hour`. -/
def hourOf (t : Nat) : Nat := t % 86400 / 3600

/-- Monday-based weekday index; epoch day 0 (1970-01-01) was a Thursday. -/
def weekdayIdx (t : Nat) : Nat := (t / 86400 + 3) % 7

/-- Weekday index to `pandas` `day_name()`. -/
def dayName : Nat → String
  | 0 => "Monday"
  | 1 => "Tuesday"
  | 2 => "Wednesday"
  | 3 => "Thursday"
  | 4 => "Friday"
  | 5 => "Saturday"
  | 6 => "Sunday"
  | _ => ""

/-- `datetime.dt.day_name()`. -/
def weekdayOf (t : Nat) : String := dayName (weekdayIdx t)

/-- Maximum of a list of naturals, `0` on the empty list (models
`Series.max`, which is only consulted on non-empty data). -/
def listMaxD : List Nat → Nat
  | [] => 0
  | x :: xs => max x (listMaxD xs)

/-- Minimum of a list of naturals, `0` on the empty list. -/
def listMinD : List Nat → Nat
  | [] => 0
  | [x] => x
  | x :: y :: rest => min x (listMinD (y :: rest))

/-- `df["datetime"].max()`. -/
def dfMaxDatetime (df : DataFrame) : Nat := listMaxD (df.rows.map (·.datetime))

/-- `df["datetime"].min()`. -/
def dfMinDatetime (df : DataFrame) : Nat := listMinD (df.rows.map (·.datetime))

/-- `df[df["datetime"] >= start_date]` (`utils.py` line 47). -/
def filterFrom (df : DataFrame) (start : Nat) : DataFrame :=
  { rows := df.rows.filter (fun r => start ≤ r.datetime), extraCols := df.extraCols }

/-- `get_time_period_filter` (`utils.py` lines 23-47). -/
def get_time_period_filter (df : DataFrame) (period : String) : DataFrame :=
  if period = "all" then df
  else
    let now := dfMaxDatetime df
    if period = "7d" then filterFrom df (now - 7 * 86400)
    else if period = "30d" then filterFrom df (now - 30 * 86400)
    else if period = "90d" then filterFrom df (now - 90 * 86400)
    else if period = "1y" then filterFrom df (now - 365 * 86400)
    else df

/-- Number of messages at a given (weekday name, hour) cell. -/
def heatmapCount (df : DataFrame) (w : String) (h : Nat) : Nat :=
  (df.rows.filter (fun r => weekdayOf r.datetime == w && hourOf r.datetime == h)).length

/-- The hours that occur in the data, ascending: the column labels of the
pivot table in `create_activity_heatmap` (pivot columns are the distinct
`hour` values present, sorted). -/
def presentHours (df : DataFrame) : List Nat :=
  (List.range 24).filter (fun h => df.rows.any (fun r => hourOf r.datetime == h))

/-- Whether some message falls on the given weekday (i.e. the weekday is a
row of the pivot table before reindexing). -/
def weekdayPresent (df : DataFrame) (w : String) : Bool :=
  df.rows.any (fun r => weekdayOf r.datetime == w)

/-- The fixed Monday-to-Sunday row order of `create_activity_heatmap`
(`utils.py` lines 63-71). -/
def weekday_order : List String :=
  ["Monday", "Tuesday", "Wednesday", "Thursday", "Friday", "Saturday", "Sunday"]

/-- The heatmap matrix: row labels, column labels and cell values, with
`none` for a NaN cell. -/
structure HeatmapData where
  weekdays : List String
  hours : List Nat
  cells : List (List (Option Nat))
  deriving Repr, DecidableEq

/-- `create_activity_heatmap` (`utils.py` lines 50-90), up to the chart
object: `groupby(["weekday", "hour"]).size()`, `pivot`, `fillna(0)`, then
`reindex(weekday_order)`.  The pivot's columns are the distinct hours
present in the data; `fillna(0)` zero-fills only cells of the pivot (rows
for weekdays present in the data), and the subsequent `reindex` inserts an
all-NaN row for each weekday with no data. -/
def create_activity_heatmap (df : DataFrame) : HeatmapData :=
  { weekdays := weekday_order
    hours := presentHours df
    cells := weekday_order.map (fun w =>
      if weekdayPresent df w then
        (presentHours df).map (fun h => some (heatmapCount df w h))
      else
        (presentHours df).map (fun _ => (none : Option Nat))) }

/-- Python `None` test for a cell value (pandas notna/nunique/count treat
`None` as missing). -/
def isNull : JVal → Bool
  | .jnull => true
  | _ => false

/-- The scalar summary returned by `get_basic_stats` (`utils.py` lines
146-161). -/
structure BasicStats where
  total_messages : Nat
  total_chats : Nat
  date_range_start : Nat
  date_range_end : Nat
  total_days : Nat
  total_text_length : Nat
  media_messages : Nat
  total_calls : Nat
  avg_call_duration : Rat
  deriving Repr, DecidableEq

/-- `get_basic_stats` (`utils.py` lines 139-161).  `none` models the `{}`
returned for a missing or empty frame.  `total_days` is
`(datetime.max() - datetime.min()).days + 1`, i.e. the floor of the
timestamp difference in whole days, plus one.  `nunique` and `notna`
ignore `None` cells.  The mean call duration averages the non-missing
numeric `duration_seconds` of the call rows (division by zero, which in
pandas would surface as NaN, is `0` in `Rat`; the code guards the
no-call case with an explicit `0`). -/
def get_basic_stats (df : DataFrame) : Option BasicStats :=
  if df.rows.isEmpty then none
  else
    let calls := df.rows.filter (fun r => r.record.action == .jstr "phone_call")
    let callDurations := calls.filterMap (fun r =>
      match r.record.duration_seconds with
      | .jnum n => some n
      | _ => none)
    some
      { total_messages := df.rows.length
        total_chats := ((df.rows.map (·.record.chat_id)).filter (fun v => !isNull v)).dedup.length
        date_range_start := dfMinDatetime df
        date_range_end := dfMaxDatetime df
        total_days := (dfMaxDatetime df - dfMinDatetime df) / 86400 + 1
        total_text_length := (df.rows.map (·.record.text_length)).sum
        media_messages := (df.rows.filter (fun r => !isNull r.record.media_type)).length
        total_calls := calls.length
        avg_call_duration :=
          if calls.length > 0 then
            (callDurations.map (fun n => (n : Rat))).sum / (callDurations.length : Rat)
          else 0 }

/-- One row of the per-chat summary table built by `get_chat_summary`
(`utils.py` lines 170-203). -/
structure ChatSummaryRow where
  chat_id : JVal
  chat_name : JVal
  chat_type : JVal
  message_count : Nat
  total_text_length : Nat
  avg_text_length : Rat
  unique_senders : Nat
  first_message : Nat
  last_message : Nat
  media_count : Nat
  days_active : Nat
  messages_per_day : Rat
  deriving Repr, DecidableEq

/-- `.round(2)` on a numeric value. -/
def round2 (q : Rat) : Rat := (round (q * 100) : Int) / 100

/-- The `groupby(["chat_id", "chat_name", "chat_type"])` key of a row. -/
def rowKey (r : Row) : JVal × JVal × JVal :=
  (r.record.chat_id, r.record.chat_name, r.record.chat_type)

/-- `groupby` drops rows whose key contains a missing value. -/
def keyNotNull (r : Row) : Bool :=
  !isNull r.record.chat_id && !isNull r.record.chat_name && !isNull r.record.chat_type

/-- Minimum of the `datetime` column of a group. -/
def rowsMinDT (rows : List Row) : Nat := listMinD (rows.map (·.datetime))

/-- Maximum of the `datetime` column of a group. -/
def rowsMaxDT (rows : List Row) : Nat := listMaxD (rows.map (·.datetime))

/-- The aggregation applied to one group by `get_chat_summary`:
`message_id` count (non-missing values), `text_length` sum and mean,
`from` nunique, `datetime` min and max, non-missing `media_type` count,
then the derived `days_active = (last - first).dt.days + 1` and
`messages_per_day = round(message_count / days_active, 2)`. -/
def mkChatSummaryRow (key : JVal × JVal × JVal) (group : List Row) : ChatSummaryRow :=
  let message_count := (group.filter (fun r => !isNull r.record.message_id)).length
  let total_text := (group.map (·.record.text_length)).sum
  let first := rowsMinDT group
  let last := rowsMaxDT group
  let days_active := (last - first) / 86400 + 1
  { chat_id := key.1
    chat_name := key.2.1
    chat_type := key.2.2
    message_count := message_count
    total_text_length := total_text
    avg_text_length := round2 ((total_text : Rat) / (group.length : Rat))
    unique_senders := ((group.map (·.record.from_)).filter (fun v => !isNull v)).dedup.length
    first_message := first
    last_message := last
    media_count := (group.filter (fun r => !isNull r.record.media_type)).length
    days_active := days_active
    messages_per_day := round2 ((message_count : Rat) / (days_active : Rat)) }

/-- The groups of `groupby(["chat_id", "chat_name", "chat_type"])`: one
entry per distinct non-missing key, carrying the rows with that key. -/
def groupRows (df : DataFrame) : List ((JVal × JVal × JVal) × List Row) :=
  (((df.rows.filter keyNotNull).map rowKey).dedup).map
    (fun k => (k, (df.rows.filter keyNotNull).filter (fun r => rowKey r == k)))

/-- Insert into a list already sorted by `message_count` descending. -/
def insertByCountDesc (r : ChatSummaryRow) : List ChatSummaryRow → List ChatSummaryRow
  | [] => [r]
  | x :: xs =>
    if r.message_count ≤ x.message_count then x :: insertByCountDesc r xs
    else r :: x :: xs

/-- `sort_values("message_count", ascending=False)` (`utils.py` line 203);
the order among rows with equal counts is not fixed by the claims. -/
def sortByCountDesc : List ChatSummaryRow → List ChatSummaryRow
  | [] => []
  | r :: rest => insertByCountDesc r (sortByCountDesc rest)

/-- `get_chat_summary` (`utils.py` lines 165-203); `none` models the
`None` returned for a missing or empty frame. -/
def get_chat_summary (df : DataFrame) : Option (List ChatSummaryRow) :=
  if df.rows.isEmpty then none
  else some (sortByCountDesc ((groupRows df).map (fun g => mkChatSummaryRow g.1 g.2)))

/-- Length of a civil year in days. -/
def daysInYear (y : Nat) : Nat := if isLeap y then 366 else 365

/-- Split days-since-epoch into (year, day-of-year), walking years from
1970.  Fuel-driven so the definition is structural; `d + 1` steps always
suffice because each step consumes at least 365 days. -/
def yearSplitGo : Nat → Nat → Nat → Nat × Nat
  | 0, y, d => (y, d)
  | fuel + 1, y, d =>
    if daysInYear y ≤ d then yearSplitGo fuel (y + 1) (d - daysInYear y) else (y, d)

/-- Year and day-of-year of a days-since-epoch count. -/
def yearSplit (d : Nat) : Nat × Nat := yearSplitGo (d + 1) 1970 d

/-- Day-of-year on which the month containing `doy` starts. -/
def monthStartDoyGo : List Nat → Nat → Nat → Nat
  | [], acc, _ => acc
  | len :: rest, acc, doy =>
    if doy < acc + len then acc else monthStartDoyGo rest (acc + len) doy

/-- Day-of-year of the first day of the month containing `doy`. -/
def monthStartDoy (leap : Bool) (doy : Nat) : Nat :=
  monthStartDoyGo (monthLengths leap) 0 doy

/-- `datetime.dt.to_period("M").dt.start_time`: midnight on the first of
the month. -/
def monthStart (t : Nat) : Nat :=
  let days := t / 86400
  let ys := yearSplit days
  (days - ys.2 + monthStartDoy (isLeap ys.1) ys.2) * 86400

/-- The period start assigned to a timestamp by `create_message_timeline`
for each granularity (`utils.py` lines 107-121): `floor("H")`,
`floor("D")`, `to_period("W").start_time` (pandas weeks end on Sunday, so
the start is the preceding Monday), `to_period("M").start_time`, and the
daily floor for any unrecognized granularity. -/
def periodOf (granularity : String) (t : Nat) : Nat :=
  if granularity = "hour" then t / 3600 * 3600
  else if granularity = "day" then t / 86400 * 86400
  else if granularity = "week" then (t / 86400 - (t / 86400 + 3) % 7) * 86400
  else if granularity = "month" then monthStart t
  else t / 86400 * 86400

/-- Insert into an ascending list of naturals. -/
def insertAsc (x : Nat) : List Nat → List Nat
  | [] => [x]
  | y :: ys => if x ≤ y then x :: y :: ys else y :: insertAsc x ys

/-- Sort a list of naturals ascending. -/
def sortAsc : List Nat → List Nat
  | [] => []
  | x :: xs => insertAsc x (sortAsc xs)

/-- `df.groupby("period").size()`: one (period, count) pair per distinct
period, periods ascending. -/
def timelineOf (rows : List Row) (granularity : String) : List (Nat × Nat) :=
  (sortAsc ((rows.map (fun r => periodOf granularity r.datetime)).dedup)).map
    (fun p => (p, (rows.filter (fun r => periodOf granularity r.datetime == p)).length))

/-- `create_message_timeline` (`utils.py` lines 93-135), returning the
state of the caller's frame after the call together with the bucketed
counts.  With a `chat_name` the local `df` is rebound to a boolean-mask
copy, so the `df["period"] = ...` column assignment lands on that copy
and the caller's frame is untouched; with `chat_name=None` the assignment
adds a `period` column to the caller's frame in place. -/
def create_message_timeline (df : DataFrame) (chat_name : Option String)
    (granularity : String) : DataFrame × List (Nat × Nat) :=
  match chat_name with
  | some n =>
    (df, timelineOf (df.rows.filter (fun r => r.record.chat_name == .jstr n)) granularity)
  | none =>
    ({ rows := df.rows, extraCols := df.extraCols ++ ["period"] },
      timelineOf df.rows granularity)

/-- `create_full_timeline` (`utils.py` lines 206-260), returning the state
of the caller's frame after the call (the code works on
`chat_df.copy()`, so the input is untouched) together with one
(day, count) pair for every calendar day from `start_date.date()` to
`end_date.date()` inclusive, zero-filled where no message occurred. -/
def create_full_timeline (df : DataFrame) (start_date end_date : Nat) :
    DataFrame × List (Nat × Nat) :=
  let startD := date_only start_date
  let endD := date_only end_date
  let days := (List.range (endD + 1 - startD)).map (fun i => startD + i)
  (df, days.map (fun d =>
    (d, (df.rows.filter (fun r => date_only r.datetime == d)).length)))

/-- A character kept by the cleaning step of `create_word_cloud`
(`re.sub(r"[^\w\s\-.,!?]", " ", ...)`, restricted to the ASCII range of
our model). -/
def isWordChar (c : Char) : Bool :=
  c.isAlphanum || c == '_' || c == '-' || c == '.' || c == ',' || c == '!' || c == '?'

/-- One token of `re.sub(r"http\S+|www\S+|https\S+", "", ...)`, modelled
at whitespace-token granularity. -/
def stripUrlToken (w : String) : String :=
  if w.startsWith "http" || w.startsWith "www" then "" else w

/-- The text-cleaning and tokenizing pipeline of `create_word_cloud`
(`utils.py` lines 263-517), returning the state of the caller's frame
after the call (the body only reads the frame) together with the cleaned
whitespace-separated tokens fed to the word-frequency display: texts of
rows with positive `text_length` are joined with spaces, URL-like tokens
are dropped, whitespace is collapsed, and characters outside the
conservative keep-set are replaced by spaces (splitting tokens). -/
def create_word_cloud (df : DataFrame) : DataFrame × List String :=
  let texts := ((df.rows.filter (fun r => r.record.text_length > 0)).map (·.record.text))
  let allText := String.intercalate " " texts
  let words := (allText.split Char.isWhitespace).filter (fun w => w ≠ "")
  let noUrls := (words.map stripUrlToken).filter (fun w => w ≠ "")
  let tokens := noUrls.flatMap (fun w =>
    ((String.mk (w.toList.map (fun c => if isWordChar c then c else ' '))).split
      (fun c => c == ' ')).filter (fun s => s ≠ ""))
  (df, tokens)

/-- `get_basic_stats` in state-passing form: its body only reads the
frame (no column assignment), so the post-call state is the input. -/
def get_basic_statsS (df : DataFrame) : DataFrame × Option BasicStats :=
  (df, get_basic_stats df)

/-- `get_chat_summary` in state-passing form: its body only reads the
frame, so the post-call state is the input. -/
def get_chat_summaryS (df : DataFrame) : DataFrame × Option (List ChatSummaryRow) :=
  (df, get_chat_summary df)

/-- `get_time_period_filter` in state-passing form: its body only reads
the frame, so the post-call state is the input. -/
def get_time_period_filterS (df : DataFrame) (period : String) : DataFrame × DataFrame :=
  (df, get_time_period_filter df period)

/-- `create_activity_heatmap` in state-passing form: `groupby`, `pivot`
and `reindex` all build new frames, so the post-call state is the
input. -/
def create_activity_heatmapS (df : DataFrame) : DataFrame × HeatmapData :=
  (df, create_activity_heatmap df)

/-- Example export: one personal chat, one private group and one
unknown-type chat, each holding one message. -/
def exDocMixed : JVal :=
  .jobj [("chats", .jobj [("list", .jlist [
    .jobj [("id", .jnum 1), ("name", .jstr "Alice"), ("type", .jstr "personal_chat"),
      ("messages", .jlist [
        .jobj [("id", .jnum 10), ("date", .jstr "2023-01-15T14:30:00"),
          ("text", .jstr "hi")]])],
    .jobj [("id", .jnum 2), ("name", .jstr "Grp"), ("type", .jstr "private_group"),
      ("messages", .jlist [
        .jobj [("id", .jnum 20), ("date", .jstr "2023-01-16T10:00:00"),
          ("text", .jstr "yo")]])],
    .jobj [("id", .jnum 3), ("name", .jstr "Bot"), ("type", .jstr "bot_chat"),
      ("messages", .jlist [
        .jobj [("id", .jnum 30), ("date", .jstr "2023-01-17T10:00:00"),
          ("text", .jstr "beep")]])]])])]

/-- A single-row frame used as a concrete aggregation input: one message
in chat 1 at 2023-01-15T14:30:00. -/
def exRow1 : Row :=
  { record :=
      { chat_id := .jnum 1
        chat_name := .jstr "Alice"
        chat_type := .jstr "personal_chat"
        message_id := .jnum 10
        from_ := .jstr "Alice"
        from_id := .jstr "user1"
        actor := .jnull
        actor_id := .jnull
        date := .jstr "2023-01-15T14:30:00"
        date_unixtime := .jnum 1673793000
        text := "hi"
        text_length := 2
        msg_type := .jstr "message"
        action := .jnull
        reply_to_message_id := .jnull
        forwarded_from := .jnull
        media_type := .jnull
        file := .jnull
        width := .jnull
        height := .jnull
        duration_seconds := .jnull }
    datetime := 1673793000 }

/-- A one-row data frame. -/
def exDf1 : DataFrame := { rows := [exRow1], extraCols := [] }

/-- The concatenation described by the spec for the list shape of a text
field: plain strings and the `text` fields of tagged objects, in order,
ignoring everything else. -/
def specListConcat : List JVal → String
  | [] => ""
  | item :: rest =>
    (match item with
     | .jstr s => s
     | .jobj fields =>
       (match lookupField fields "text" with
        | some (.jstr s) => s
        | _ => "")
     | _ => "") ++ specListConcat rest

/-- A list element whose tagged `text` field (if any) is a plain string,
as in every well-typed export. -/
def taggedTextOk : JVal → Bool
  | .jobj fields =>
    (match lookupField fields "text" with
     | some (.jstr _) => true
     | some _ => false
     | none => true)
  | _ => true

/-- A chat entry that contributes no message record because its message
list is empty or absent (a well-formed chat object whose `messages` value
is missing or the empty list). -/
def chatEmptyMsgs : JVal → Bool
  | .jobj fields =>
    (match lookupField fields "messages" with
     | none => true
     | some (.jlist []) => true
     | some _ => false)
  | _ => false

/-- The single row that `exDocMixed` normalizes to. -/
def exRowMixed : NRow :=
  { record :=
      { chat_id := .jnum 1
        chat_name := .jstr "Alice"
        chat_type := .jstr "personal_chat"
        message_id := .jnum 10
        from_ := .jstr "Unknown"
        from_id := .jstr ""
        actor := .jnull
        actor_id := .jnull
        date := .jstr "2023-01-15T14:30:00"
        date_unixtime := .jnum 0
        text := "hi"
        text_length := 2
        msg_type := .jstr "message"
        action := .jnull
        reply_to_message_id := .jnull
        forwarded_from := .jnull
        media_type := .jnull
        file := .jnull
        width := .jnull
        height := .jnull
        duration_seconds := .jnull }
    datetime := some 1673793000 }

/-- The export document `exDocMixed` normalizes to this single-row
frame. -/
def exDfMixed : NDataFrame := { rows := [exRowMixed], extraCols := [] }

/-- A document with chats present but every chat's message list empty. -/
def exAllEmptyChats : List JVal :=
  [.jobj [("id", .jnum 1), ("type", .jstr "personal_chat"), ("messages", .jlist [])],
   .jobj [("id", .jnum 2), ("type", .jstr "private_group")]]

/-- The enclosing all-empty export document. -/
def exAllEmptyDoc : JVal :=
  .jobj [("chats", .jobj [("list", .jlist exAllEmptyChats)])]

/-- An export document whose single message has no `date` field: the
loader defaults the field to the empty string, which `pd.to_datetime`
converts to NaT without raising. -/
def exNaTDoc : JVal :=
  .jobj [("chats", .jobj [("list", .jlist [
    .jobj [("id", .jnum 1), ("name", .jstr "Alice"), ("type", .jstr "personal_chat"),
      ("messages", .jlist [
        .jobj [("id", .jnum 10), ("text", .jstr "hi")]])]])])]

/-- A one-message record in the personal chat `A`, used to build concrete
aggregation inputs. -/
def testRecord (mid : JVal) (datestr : String) : MessageRecord :=
  { chat_id := .jnum 1
    chat_name := .jstr "A"
    chat_type := .jstr "personal_chat"
    message_id := mid
    from_ := .jstr "Alice"
    from_id := .jstr "u1"
    actor := .jnull
    actor_id := .jnull
    date := .jstr datestr
    date_unixtime := .jnum 0
    text := ""
    text_length := 0
    msg_type := .jstr "message"
    action := .jnull
    reply_to_message_id := .jnull
    forwarded_from := .jnull
    media_type := .jnull
    file := .jnull
    width := .jnull
    height := .jnull
    duration_seconds := .jnull }

/-- A concrete normalized row. -/
def testRow (mid : JVal) (datestr : String) (dt : Nat) : Row :=
  { record := testRecord mid datestr, datetime := dt }

/-- Two messages in one chat, 23:00 on day 0 and 01:00 on day 1: two
calendar dates, but less than 24 hours apart. -/
def exDfC3 : DataFrame :=
  { rows := [testRow (.jnum 1) "1970-01-01T23:00:00" 82800,
             testRow (.jnum 2) "1970-01-02T01:00:00" 90000]
    extraCols := [] }

/-- Two messages in one chat, one with a null message identifier. -/
def exDfC9 : DataFrame :=
  { rows := [testRow (.jnum 1) "1970-01-01T23:00:00" 82800,
             testRow .jnull "1970-01-02T01:00:00" 90000]
    extraCols := [] }

/-- The summary row of `exDfC3`: the aggregation of its single group. -/
def exSummaryC3 : ChatSummaryRow :=
  mkChatSummaryRow (.jnum 1, .jstr "A", .jstr "personal_chat")
    [testRow (.jnum 1) "1970-01-01T23:00:00" 82800,
     testRow (.jnum 2) "1970-01-02T01:00:00" 90000]

/-- The basic statistics of `exDfC3`. -/
def exBasicC3 : BasicStats :=
  { total_messages := 2
    total_chats := 1
    date_range_start := 82800
    date_range_end := 90000
    total_days := 1
    total_text_length := 0
    media_messages := 0
    total_calls := 0
    avg_call_duration := 0 }

/-- C1.  The claim says the loader flattens every message of every chat
regardless of the chat's type tag, and that records of unrecognized tags
stay in the record set.  The code instead skips every chat whose type is
not `personal_chat` or `saved_messages` (`data_loader.py` lines 51-53):
on a document with a personal chat, a `private_group` chat and a
`bot_chat` chat of one message each, the record set holds only the
personal chat's record.  The callers expect otherwise (`app.py` filters
the record set for `private_group`/`private_supergroup` rows to feed the
Group Insights view, which this makes permanently empty), so the code,
not the claim, is wrong. -/
theorem C1_all_chats_flattened :
    (extract_messages exDocMixed).map (fun df => df.rows.map (fun r => r.record.chat_id))
      = some [.jnum 1] := by decide

/-- The maximum returned by `listMaxD` on a non-empty list is an element
of the list. -/
theorem listMaxD_mem : ∀ (l : List Nat), l ≠ [] → listMaxD l ∈ l := by
  intro l hne
  induction l with
  | nil => exact absurd rfl hne
  | cons x xs ih =>
    by_cases hxs : xs = []
    · subst hxs; simp [listMaxD]
    · rcases le_total x (listMaxD xs) with hm | hm
      · simp only [listMaxD, max_eq_right hm]
        exact List.mem_cons_of_mem x (ih hxs)
      · simp [listMaxD, max_eq_left hm]

/-- C10.  For every non-empty record set and every window name the
time-window filter returns a non-empty result: the cutoff is computed
from the record set's own maximum timestamp, which always satisfies it. -/
theorem C10_filter_nonempty (df : DataFrame) (period : String)
    (hne : df.rows ≠ []) : (get_time_period_filter df period).rows ≠ [] := by
  have hmax : ∃ r ∈ df.rows, r.datetime = dfMaxDatetime df := by
    have hm : listMaxD (df.rows.map (·.datetime)) ∈ df.rows.map (·.datetime) :=
      listMaxD_mem _ (by simpa using hne)
    rcases List.mem_map.mp hm with ⟨r, hr, hrd⟩
    exact ⟨r, hr, hrd⟩
  rcases hmax with ⟨r, hr, hrd⟩
  have hpass : ∀ w : Nat, r ∈ (filterFrom df (dfMaxDatetime df - w)).rows := by
    intro w
    simp only [filterFrom, List.mem_filter]
    exact ⟨hr, by simp [hrd, Nat.sub_le]⟩
  unfold get_time_period_filter
  split
  · exact hne
  · split
    · exact List.ne_nil_of_mem (hpass (7 * 86400))
    · split
      · exact List.ne_nil_of_mem (hpass (30 * 86400))
      · split
        · exact List.ne_nil_of_mem (hpass (90 * 86400))
        · split
          · exact List.ne_nil_of_mem (hpass (365 * 86400))
          · exact hne

/-- Witness for C10 at a concrete non-empty frame and window. -/
theorem C10_filter_nonempty_witness :
    (get_time_period_filter exDf1 "7d").rows ≠ [] :=
  C10_filter_nonempty exDf1 "7d" (by decide)

/-- C7.  The window named `all` is the identity filter, an unrecognized
window name is also the identity filter, and each recognized window keeps
exactly the records with timestamp at least the maximum timestamp minus
the window length. -/
theorem C7_time_window_filter (df : DataFrame) (period : String)
    (hp : period ∉ (["7d", "30d", "90d", "1y", "all"] : List String)) :
    get_time_period_filter df "all" = df
    ∧ get_time_period_filter df period = df
    ∧ (get_time_period_filter df "7d").rows
        = df.rows.filter (fun r => dfMaxDatetime df - 7 * 86400 ≤ r.datetime)
    ∧ (get_time_period_filter df "30d").rows
        = df.rows.filter (fun r => dfMaxDatetime df - 30 * 86400 ≤ r.datetime)
    ∧ (get_time_period_filter df "90d").rows
        = df.rows.filter (fun r => dfMaxDatetime df - 90 * 86400 ≤ r.datetime)
    ∧ (get_time_period_filter df "1y").rows
        = df.rows.filter (fun r => dfMaxDatetime df - 365 * 86400 ≤ r.datetime) := by
  simp only [List.mem_cons, List.mem_singleton, not_or] at hp
  obtain ⟨h7, h30, h90, h1y, hall⟩ := hp
  refine ⟨by simp [get_time_period_filter], ?_, ?_, ?_, ?_, ?_⟩
  · simp [get_time_period_filter, hall, h7, h30, h90, h1y]
  · simp [get_time_period_filter, filterFrom]
  · simp [get_time_period_filter, filterFrom]
  · simp [get_time_period_filter, filterFrom]
  · simp [get_time_period_filter, filterFrom]

/-- Witness for C7 at a concrete frame and a concrete unrecognized
window name. -/
theorem C7_time_window_filter_witness :
    get_time_period_filter exDf1 "all" = exDf1
    ∧ get_time_period_filter exDf1 "2d" = exDf1
    ∧ (get_time_period_filter exDf1 "7d").rows
        = exDf1.rows.filter (fun r => dfMaxDatetime exDf1 - 7 * 86400 ≤ r.datetime) :=
  let h := C7_time_window_filter exDf1 "2d" (by decide)
  ⟨h.1, h.2.1, h.2.2.1⟩

/-- C6 counterexample.  `create_message_timeline` called without a chat
filter assigns a `period` column to the caller's frame in place
(`utils.py` lines 107-121), so the input does not hold the same columns
after the call. -/
theorem C6_counterexample :
    (create_message_timeline exDf1 none "day").1.extraCols = ["period"]
    ∧ exDf1.extraCols = []
    ∧ (create_message_timeline exDf1 none "day").1 ≠ exDf1 := by
  refine ⟨rfl, rfl, ?_⟩
  intro h
  have h2 : (create_message_timeline exDf1 none "day").1.extraCols = exDf1.extraCols := by
    rw [h]
  simp [create_message_timeline, exDf1] at h2

/-- C6 as amended.  Every aggregation function except
`create_message_timeline` leaves its input record set unchanged (their
bodies only read the frame, or work on an explicit copy);
`create_message_timeline` leaves the input unchanged when a chat filter
is given (the column assignment lands on the boolean-mask copy), and
without one it adds a `period` column to the input while leaving its rows
unchanged. -/
theorem C6_aggregators_input_state (df : DataFrame) (period granularity n : String)
    (s e : Nat) :
    (get_basic_statsS df).1 = df
    ∧ (get_chat_summaryS df).1 = df
    ∧ (get_time_period_filterS df period).1 = df
    ∧ (create_activity_heatmapS df).1 = df
    ∧ (create_full_timeline df s e).1 = df
    ∧ (create_word_cloud df).1 = df
    ∧ (create_message_timeline df (some n) granularity).1 = df
    ∧ (create_message_timeline df none granularity).1.rows = df.rows :=
  ⟨rfl, rfl, rfl, rfl, rfl, rfl, rfl, rfl⟩

/-- `getD` after `map`, inside the bounds. -/
theorem getD_map_lt {α β : Type} (f : α → β) (dflt : β) (d0 : α) :
    ∀ (l : List α) (j : Nat), j < l.length → (l.map f).getD j dflt = f (l.getD j d0) := by
  intro l
  induction l with
  | nil => intro j hj; simp at hj
  | cons x xs ih =>
    intro j hj
    cases j with
    | zero => simp
    | succ j2 =>
      simp only [List.map_cons, List.getD_cons_succ]
      exact ih j2 (by simpa using hj)

/-- C4 counterexample.  On a frame whose single message falls at hour 14,
the heatmap matrix has one column, not 24, and the row of a weekday with
no data (here Monday; the message is on a Sunday) holds NaN, not 0:
`fillna(0)` runs before `reindex(weekday_order)` inserts the missing
weekday rows, and the pivot has no column for an hour that never
occurs. -/
theorem C4_counterexample :
    (create_activity_heatmap exDf1).hours.length = 1
    ∧ (create_activity_heatmap exDf1).hours.length ≠ 24
    ∧ (create_activity_heatmap exDf1).cells.getD 0 [] = [none] := by
  refine ⟨?_, ?_, ?_⟩ <;> decide

/-- C4 as amended.  The heatmap matrix always has exactly 7 rows fixed in
Monday-to-Sunday order; its columns are the distinct hours that occur in
the input (ascending), not always 24; a cell of a weekday that occurs in
the input holds the (possibly zero) message count for that (weekday,
hour), while every cell of a weekday that does not occur holds NaN. -/
theorem C4_heatmap_shape (df : DataFrame) (i j : Nat) (hi : i < 7)
    (hj : j < (presentHours df).length) :
    (create_activity_heatmap df).weekdays = weekday_order
    ∧ (create_activity_heatmap df).weekdays.length = 7
    ∧ (create_activity_heatmap df).hours = presentHours df
    ∧ (create_activity_heatmap df).cells.length = 7
    ∧ ((create_activity_heatmap df).cells.getD i []).getD j none
        = (if weekdayPresent df (weekday_order.getD i "")
           then some (heatmapCount df (weekday_order.getD i "") ((presentHours df).getD j 0))
           else none) := by
  refine ⟨rfl, rfl, rfl, rfl, ?_⟩
  have key : ∀ w : String,
      ((if weekdayPresent df w then
          (presentHours df).map (fun h => some (heatmapCount df w h))
        else
          (presentHours df).map (fun _ => (none : Option Nat))).getD j none)
      = (if weekdayPresent df w
         then some (heatmapCount df w ((presentHours df).getD j 0))
         else none) := by
    intro w
    by_cases hP : weekdayPresent df w = true
    · rw [if_pos hP, if_pos hP]
      exact getD_map_lt _ _ 0 _ j hj
    · rw [if_neg hP, if_neg hP]
      exact getD_map_lt _ _ 0 _ j hj
  interval_cases i <;>
    simpa only [create_activity_heatmap, weekday_order, List.map_cons,
      List.getD_cons_zero, List.getD_cons_succ] using key _

/-- Witness for C4's amended shape theorem on a concrete frame and cell. -/
theorem C4_heatmap_shape_witness :
    (create_activity_heatmap exDf1).weekdays = weekday_order
    ∧ (create_activity_heatmap exDf1).weekdays.length = 7
    ∧ (create_activity_heatmap exDf1).hours = presentHours exDf1
    ∧ (create_activity_heatmap exDf1).cells.length = 7
    ∧ ((create_activity_heatmap exDf1).cells.getD 0 []).getD 0 none
        = (if weekdayPresent exDf1 (weekday_order.getD 0 "")
           then some (heatmapCount exDf1 (weekday_order.getD 0 "")
             ((presentHours exDf1).getD 0 0))
           else none) :=
  C4_heatmap_shape exDf1 0 0 (by decide) (by decide)

/-- The list branch of `_extract_text_content` concatenates exactly the
parts described by the spec whenever tagged elements carry string text
fields. -/
theorem joinTextParts_ok : ∀ items : List JVal,
    (∀ it ∈ items, taggedTextOk it = true) →
    joinTextParts items = some (specListConcat items) := by
  intro items h
  induction items with
  | nil => rfl
  | cons item rest ih =>
    have hrest := ih (fun it hit => h it (List.mem_cons_of_mem _ hit))
    have hitem := h item (List.mem_cons_self _ _)
    cases item with
    | jnull => simp [joinTextParts, hrest, specListConcat]
    | jbool b => simp [joinTextParts, hrest, specListConcat]
    | jnum n => simp [joinTextParts, hrest, specListConcat]
    | jstr s => simp [joinTextParts, hrest, specListConcat]
    | jlist xs => simp [joinTextParts, hrest, specListConcat]
    | jobj fields =>
      simp only [taggedTextOk] at hitem
      cases hl : lookupField fields "text" with
      | none => simp [joinTextParts, hrest, specListConcat, hl]
      | some v =>
        rw [hl] at hitem
        cases v with
        | jstr s => simp [joinTextParts, hrest, specListConcat, hl]
        | jnull => simp at hitem
        | jbool b => simp at hitem
        | jnum n => simp at hitem
        | jlist xs => simp at hitem
        | jobj fs => simp at hitem

/-- C8.  Text extraction returns a plain string unchanged (so it is
idempotent on plain-string input), maps a list to the in-order
concatenation of its plain-string elements and the string `text` fields
of its tagged-object elements while ignoring all other elements (in
particular `["a", {"text": "b"}, 123]` yields `"ab"`), returns the `text`
field of a single tagged object, and yields the empty string on every
other shape (null, boolean, number, or object without a `text` field). -/
theorem C8_text_extraction (s ts : String) (items : List JVal)
    (fields fields2 : List (String × JVal)) (v : JVal)
    (hitems : ∀ it ∈ items, taggedTextOk it = true)
    (hf : lookupField fields "text" = some (.jstr ts))
    (hf2 : lookupField fields2 "text" = none)
    (hv : v = .jnull ∨ (∃ b, v = .jbool b) ∨ (∃ n, v = .jnum n)) :
    extract_text_content (.jstr s) = some s
    ∧ extract_text_content (.jlist items) = some (specListConcat items)
    ∧ extract_text_content (.jobj fields) = some ts
    ∧ extract_text_content (.jobj fields2) = some ""
    ∧ extract_text_content v = some ""
    ∧ extract_text_content (.jlist [.jstr "a", .jobj [("text", .jstr "b")], .jnum 123])
        = some "ab" := by
  refine ⟨rfl, joinTextParts_ok items hitems, ?_, ?_, ?_, by decide⟩
  · simp [extract_text_content, hf]
  · simp [extract_text_content, hf2]
  · rcases hv with h | ⟨b, h⟩ | ⟨n, h⟩ <;> subst h <;> rfl

/-- Witness for C8 at concrete inputs of each shape. -/
theorem C8_text_extraction_witness :
    extract_text_content (.jstr "hello") = some "hello"
    ∧ extract_text_content (.jlist [.jstr "a", .jobj [("text", .jstr "b")], .jnum 123])
        = some (specListConcat [.jstr "a", .jobj [("text", .jstr "b")], .jnum 123])
    ∧ extract_text_content (.jobj [("text", .jstr "b")]) = some "b"
    ∧ extract_text_content (.jobj [("k", .jnum 1)]) = some ""
    ∧ extract_text_content .jnull = some ""
    ∧ extract_text_content (.jlist [.jstr "a", .jobj [("text", .jstr "b")], .jnum 123])
        = some "ab" :=
  C8_text_extraction "hello" "b" [.jstr "a", .jobj [("text", .jstr "b")], .jnum 123]
    [("text", .jstr "b")] [("k", .jnum 1)] .jnull (by decide) (by decide) (by decide)
    (Or.inl rfl)

/-- A document whose chats are all well-formed with empty (or absent)
message lists flattens to the empty record list. -/
theorem processChats_all_empty : ∀ chats : List JVal,
    (∀ c ∈ chats, chatEmptyMsgs c = true) → processChats chats = some [] := by
  intro chats h
  induction chats with
  | nil => rfl
  | cons chat rest ih =>
    have hrest := ih (fun c hc => h c (List.mem_cons_of_mem _ hc))
    have hchat := h chat (List.mem_cons_self _ _)
    cases chat with
    | jobj fields =>
      simp only [chatEmptyMsgs] at hchat
      unfold processChats
      dsimp only
      by_cases hty : (objGetD fields "type" (.jstr "unknown") = .jstr "personal_chat"
          ∨ objGetD fields "type" (.jstr "unknown") = .jstr "saved_messages")
      · rw [if_pos hty]
        cases hl : lookupField fields "messages" with
        | none => simp [objGetD, hl, hrest, processMessages]
        | some v =>
          rw [hl] at hchat
          cases v with
          | jlist xs =>
            cases xs with
            | nil => simp [objGetD, hl, hrest, processMessages]
            | cons a as => simp at hchat
          | jnull => simp at hchat
          | jbool b => simp at hchat
          | jnum n => simp at hchat
          | jstr s => simp at hchat
          | jobj fs => simp at hchat
      · rw [if_neg hty]
        exact hrest
    | jnull => simp [chatEmptyMsgs] at hchat
    | jbool b => simp [chatEmptyMsgs] at hchat
    | jnum n => simp [chatEmptyMsgs] at hchat
    | jstr s => simp [chatEmptyMsgs] at hchat
    | jlist xs => simp [chatEmptyMsgs] at hchat

/-- Every row produced by the column conversion carries the successful
(possibly NaT) conversion of its own `date` field: no cell that raises
ever reaches a returned row. -/
theorem buildRows_parsed : ∀ (recs : List MessageRecord) (rows : List NRow),
    buildRows recs = some rows →
    ∀ r ∈ rows, toDatetimeCell r.record.date = some r.datetime := by
  intro recs
  induction recs with
  | nil =>
    intro rows h r hr
    simp only [buildRows] at h
    cases h
    simp at hr
  | cons rec0 rest ih =>
    intro rows h r hr
    simp only [buildRows] at h
    cases hp : toDatetimeCell rec0.date with
    | none => rw [hp] at h; simp at h
    | some t =>
      rw [hp] at h
      cases hb : buildRows rest with
      | none => rw [hb] at h; simp at h
      | some rows2 =>
        rw [hb] at h
        cases h
        rcases List.mem_cons.mp hr with h1 | h1
        · subst h1; exact hp
        · exact ih rows2 hb r h1

/-- The column conversion preserves the number of records. -/
theorem buildRows_length : ∀ (recs : List MessageRecord) (rows : List NRow),
    buildRows recs = some rows → rows.length = recs.length := by
  intro recs
  induction recs with
  | nil =>
    intro rows h
    simp only [buildRows] at h
    cases h
    rfl
  | cons rec0 rest ih =>
    intro rows h
    simp only [buildRows] at h
    cases hp : toDatetimeCell rec0.date with
    | none => rw [hp] at h; simp at h
    | some t =>
      rw [hp] at h
      cases hb : buildRows rest with
      | none => rw [hb] at h; simp at h
      | some rows2 =>
        rw [hb] at h
        cases h
        simp [ih rows2 hb]

/-- C2 counterexample.  The claim says a malformed timestamp string in a
record's `date` field fails the whole batch rather than producing a
record with a null timestamp.  But the loader defaults a missing `date`
field to the empty string (`data_loader.py` line 69), and
`pd.to_datetime` converts the empty string to NaT without raising, so on
a document whose single message has no `date` field normalization
*succeeds* and returns a record set containing a record with a null
timestamp. -/
theorem C2_counterexample :
    (extract_messages exNaTDoc).map (fun df => df.rows.map (fun r => r.datetime))
      = some [none]
    ∧ (extract_messages exNaTDoc).isSome = true := by
  refine ⟨?_, ?_⟩ <;> decide

/-- C2 as amended.  Normalization is all-or-nothing per uploaded file:
whenever `extract_messages` succeeds the returned record set is
non-empty and every returned row carries the successful `pd.to_datetime`
conversion of its own `date` field — either a parsed timestamp or NaT
for a missing/empty date — so a malformed non-empty `date` string in any
processed record still fails the whole batch (no partial record set, no
row whose conversion raised); and a document whose chats all have empty
message lists is reported as the tagged empty-result failure, not as an
empty success. -/
theorem C2_all_or_nothing (raw raw2 : JVal) (df : NDataFrame) (cv : JVal)
    (chats : List JVal) :
    (extract_messagesE raw = .ok df →
      df.rows ≠ [] ∧ ∀ r ∈ df.rows, toDatetimeCell r.record.date = some r.datetime)
    ∧ (jFalsy raw2 = false →
       dictGet raw2 "chats" (.jobj []) = some cv →
       dictGet cv "list" (.jlist []) = some (.jlist chats) →
       chats ≠ [] →
       (∀ c ∈ chats, chatEmptyMsgs c = true) →
       extract_messagesE raw2 = .error .noMessages) := by
  constructor
  · intro hok
    unfold extract_messagesE at hok
    by_cases hf : jFalsy raw = true
    · rw [if_pos hf] at hok; simp at hok
    · rw [if_neg hf] at hok
      cases hcg : dictGet raw "chats" (.jobj []) with
      | none => rw [hcg] at hok; simp at hok
      | some cv2 =>
        rw [hcg] at hok
        dsimp only at hok
        cases hcl : dictGet cv2 "list" (.jlist []) with
        | none => rw [hcl] at hok; simp at hok
        | some lv =>
          rw [hcl] at hok
          cases lv with
          | jlist chats2 =>
            dsimp only at hok
            cases hpc : processChats chats2 with
            | none => rw [hpc] at hok; simp at hok
            | some recs =>
              rw [hpc] at hok
              dsimp only at hok
              by_cases hemp : recs.isEmpty = true
              · rw [if_pos hemp] at hok; simp at hok
              · rw [if_neg hemp] at hok
                cases hbr : buildRows recs with
                | none => rw [hbr] at hok; simp at hok
                | some rows =>
                  rw [hbr] at hok
                  dsimp only at hok
                  cases hok
                  constructor
                  · have hlen := buildRows_length recs rows hbr
                    have hrne : recs ≠ [] := by
                      intro hcon
                      subst hcon
                      simp at hemp
                    intro hcon
                    dsimp only at hcon
                    apply hrne
                    apply List.eq_nil_of_length_eq_zero
                    rw [← hlen, hcon]
                    rfl
                  · exact buildRows_parsed recs rows hbr
          | jnull => simp at hok
          | jbool b => simp at hok
          | jnum n => simp at hok
          | jstr s => simp at hok
          | jobj fs => simp at hok
  · intro hf hcg hcl hne hall
    unfold extract_messagesE
    rw [if_neg (by simp [hf]), hcg]
    dsimp only
    rw [hcl]
    dsimp only
    rw [processChats_all_empty chats hall]
    rfl

/-- Witness for C2's amended theorem: a successful parse is non-empty
with the successfully converted timestamp on its row, and the concrete
all-empty document is reported as the empty-result failure. -/
theorem C2_all_or_nothing_witness :
    (exDfMixed.rows ≠ []
      ∧ toDatetimeCell exRowMixed.record.date = some exRowMixed.datetime)
    ∧ extract_messagesE exAllEmptyDoc = .error .noMessages := by
  have h := C2_all_or_nothing exDocMixed exAllEmptyDoc exDfMixed
    (.jobj [("list", .jlist exAllEmptyChats)]) exAllEmptyChats
  constructor
  · have h1 := h.1 (by rfl)
    exact ⟨h1.1, h1.2 exRowMixed (by decide)⟩
  · exact h.2 (by decide) (by decide) (by decide) (by decide) (by decide)

/-- C5 counterexample.  A message entry with a missing `from` field gets
the default `"Unknown"` (`data_loader.py` line 65), which is neither the
empty string nor `0` nor the null marker, so the claim's enumeration of
defaults ("empty string for text and identifier fields, 0 for numeric
identifiers and epoch seconds, null for optional descriptive fields")
does not hold of the sender-name field. -/
theorem C5_counterexample :
    (buildMessageData (.jnum 1) (.jstr "A") (.jstr "personal_chat") (.jobj [])).map
        (fun r => r.from_) = some (.jstr "Unknown")
    ∧ (JVal.jstr "Unknown") ≠ .jstr ""
    ∧ (JVal.jstr "Unknown") ≠ .jnull
    ∧ (JVal.jstr "Unknown") ≠ .jnum 0 := by
  refine ⟨?_, ?_, ?_, ?_⟩ <;> decide

/-- C5 as amended.  Every missing optional field of a message entry is
substituted by its defined default — the empty string for `from_id` and
`date`, `"Unknown"` for the sender name, `0` for the numeric message
identifier and epoch seconds, `"message"` for the type tag, empty
extracted text, and the null marker for the optional descriptive fields —
and the record is never dropped because of a missing field (text
extraction on the default empty string always succeeds). -/
theorem C5_missing_field_defaults (cid cn ct : JVal) (fields : List (String × JVal))
    (htext : (extract_text_content (objGetD fields "text" (.jstr ""))).isSome = true) :
    ∃ r, buildMessageData cid cn ct (.jobj fields) = some r
      ∧ (lookupField fields "id" = none → r.message_id = .jnum 0)
      ∧ (lookupField fields "from" = none → r.from_ = .jstr "Unknown")
      ∧ (lookupField fields "from_id" = none → r.from_id = .jstr "")
      ∧ (lookupField fields "actor" = none → r.actor = .jnull)
      ∧ (lookupField fields "actor_id" = none → r.actor_id = .jnull)
      ∧ (lookupField fields "date" = none → r.date = .jstr "")
      ∧ (lookupField fields "date_unixtime" = none → r.date_unixtime = .jnum 0)
      ∧ (lookupField fields "text" = none → r.text = "" ∧ r.text_length = 0)
      ∧ (lookupField fields "type" = none → r.msg_type = .jstr "message")
      ∧ (lookupField fields "action" = none → r.action = .jnull)
      ∧ (lookupField fields "reply_to_message_id" = none → r.reply_to_message_id = .jnull)
      ∧ (lookupField fields "forwarded_from" = none → r.forwarded_from = .jnull)
      ∧ (lookupField fields "media_type" = none → r.media_type = .jnull)
      ∧ (lookupField fields "file" = none → r.file = .jnull)
      ∧ (lookupField fields "width" = none → r.width = .jnull)
      ∧ (lookupField fields "height" = none → r.height = .jnull)
      ∧ (lookupField fields "duration_seconds" = none → r.duration_seconds = .jnull) := by
  cases hx : extract_text_content (objGetD fields "text" (.jstr "")) with
  | none => rw [hx] at htext; simp at htext
  | some tc =>
    refine ⟨_, by rw [buildMessageData.eq_def]; dsimp only; rw [hx], ?_, ?_, ?_, ?_, ?_,
      ?_, ?_, ?_, ?_, ?_, ?_, ?_, ?_, ?_, ?_, ?_, ?_⟩
    · intro h; simp [objGetD, h]
    · intro h; simp [objGetD, h]
    · intro h; simp [objGetD, h]
    · intro h; simp [objGetD, h]
    · intro h; simp [objGetD, h]
    · intro h; simp [objGetD, h]
    · intro h; simp [objGetD, h]
    · intro h
      rw [objGetD, h] at hx
      simp only [Option.getD_none, extract_text_content, Option.some.injEq] at hx
      constructor
      · exact hx.symm
      · rw [← hx]
        rfl
    · intro h; simp [objGetD, h]
    · intro h; simp [objGetD, h]
    · intro h; simp [objGetD, h]
    · intro h; simp [objGetD, h]
    · intro h; simp [objGetD, h]
    · intro h; simp [objGetD, h]
    · intro h; simp [objGetD, h]
    · intro h; simp [objGetD, h]
    · intro h; simp [objGetD, h]

/-- Witness for C5's amended defaults theorem: the fully-empty message
entry is normalized (not dropped) and gets the defined defaults. -/
theorem C5_missing_field_defaults_witness :
    (buildMessageData (.jnum 1) (.jstr "A") (.jstr "personal_chat") (.jobj [])).isSome
        = true
    ∧ (buildMessageData (.jnum 1) (.jstr "A") (.jstr "personal_chat") (.jobj [])).map
        (fun r => r.message_id) = some (.jnum 0)
    ∧ (buildMessageData (.jnum 1) (.jstr "A") (.jstr "personal_chat") (.jobj [])).map
        (fun r => r.media_type) = some .jnull := by
  obtain ⟨r, hr, hid, hfrom, hfid, hactor, haid, hdate, hdu, htext, htype, hact,
    hreply, hfwd, hmedia, hfile, hw, hh, hd⟩ :=
    C5_missing_field_defaults (.jnum 1) (.jstr "A") (.jstr "personal_chat") []
      (by decide)
  rw [hr]
  exact ⟨rfl, by simp [hid rfl], by simp [hmedia rfl]⟩

/-- A filter and its negation split the length of a list. -/
theorem length_filter_split {α : Type} (p : α → Bool) :
    ∀ l : List α, (l.filter p).length + (l.filter (fun a => !(p a))).length = l.length := by
  intro l
  induction l with
  | nil => rfl
  | cons x xs ih =>
    cases hx : p x with
    | true =>
      simp only [List.filter_cons, hx, Bool.not_true, if_true, if_false, List.length_cons]
      simp only [Bool.false_eq_true, if_false]
      omega
    | false =>
      simp only [List.filter_cons, hx, Bool.not_false, if_true, if_false, List.length_cons]
      simp only [Bool.false_eq_true, if_false]
      omega

/-- Grouping a list by a complete, duplicate-free key list partitions it:
the group sizes sum to the length of the list. -/
theorem sum_group_counts {α κ : Type} [DecidableEq κ] [BEq κ] [LawfulBEq κ] (key : α → κ) :
    ∀ (ks : List κ) (l : List α), ks.Nodup → (∀ a ∈ l, key a ∈ ks) →
    (ks.map (fun k => (l.filter (fun a => key a == k)).length)).sum = l.length := by
  intro ks
  induction ks with
  | nil =>
    intro l _ hmem
    have hl : l = [] := List.eq_nil_iff_forall_not_mem.mpr
      (fun a ha => by simpa using hmem a ha)
    subst hl
    rfl
  | cons k ks ih =>
    intro l hnd hmem
    have hk_not : k ∉ ks := (List.nodup_cons.mp hnd).1
    have hnd2 : ks.Nodup := (List.nodup_cons.mp hnd).2
    have hmem2 : ∀ a ∈ l.filter (fun a => !(key a == k)), key a ∈ ks := by
      intro a ha
      have hal : a ∈ l := (List.mem_filter.mp ha).1
      have hne : (key a == k) = false := by
        have := (List.mem_filter.mp ha).2
        simpa using this
      have hin := hmem a hal
      rcases List.mem_cons.mp hin with h1 | h1
      · exact absurd (beq_iff_eq.mpr h1) (by simp [hne])
      · exact h1
    have hcong : ∀ k2 ∈ ks,
        (l.filter (fun a => key a == k2)).length
          = ((l.filter (fun a => !(key a == k))).filter (fun a => key a == k2)).length := by
      intro k2 hk2
      rw [List.filter_filter]
      congr 1
      apply List.filter_congr
      intro a _
      by_cases he : key a = k2
      · have h1 : (key a == k2) = true := beq_iff_eq.mpr he
        have h2 : (key a == k) = false := by
          rw [he]
          exact beq_eq_false_iff_ne.mpr (fun hc => hk_not (hc ▸ hk2))
        rw [h1, h2]
        rfl
      · have h1 : (key a == k2) = false := beq_eq_false_iff_ne.mpr he
        rw [h1]
        simp
    simp only [List.map_cons, List.sum_cons]
    rw [List.map_congr_left hcong, ih (l.filter (fun a => !(key a == k))) hnd2 hmem2]
    exact length_filter_split (fun a => key a == k) l

/-- Inserting into the descending-count list is a permutation of
prepending. -/
theorem insertByCountDesc_perm (r : ChatSummaryRow) :
    ∀ l : List ChatSummaryRow, (insertByCountDesc r l).Perm (r :: l) := by
  intro l
  induction l with
  | nil => exact List.Perm.refl _
  | cons x xs ih =>
    unfold insertByCountDesc
    by_cases h : r.message_count ≤ x.message_count
    · rw [if_pos h]
      exact (ih.cons x).trans (List.Perm.swap r x xs)
    · rw [if_neg h]

/-- The descending sort of the summary rows is a permutation of them. -/
theorem sortByCountDesc_perm :
    ∀ l : List ChatSummaryRow, (sortByCountDesc l).Perm l := by
  intro l
  induction l with
  | nil => exact List.Perm.refl _
  | cons x xs ih =>
    exact (insertByCountDesc_perm x (sortByCountDesc xs)).trans (ih.cons x)

/-- A non-null value. -/
theorem isNull_eq_false {v : JVal} (h : v ≠ .jnull) : isNull v = false := by
  cases v with
  | jnull => exact absurd rfl h
  | jbool b => rfl
  | jnum n => rfl
  | jstr s => rfl
  | jlist xs => rfl
  | jobj fs => rfl

/-- Every row of the per-chat summary is the aggregation of the group of
records carrying its key. -/
theorem get_chat_summary_mem (df : DataFrame) (rows0 : List ChatSummaryRow)
    (row : ChatSummaryRow) (hs : get_chat_summary df = some rows0)
    (hm : row ∈ rows0) :
    ∃ k ∈ ((df.rows.filter keyNotNull).map rowKey).dedup,
      row = mkChatSummaryRow k
        ((df.rows.filter keyNotNull).filter (fun r => rowKey r == k)) := by
  unfold get_chat_summary at hs
  by_cases he : df.rows.isEmpty = true
  · rw [if_pos he] at hs; simp at hs
  · rw [if_neg he] at hs
    cases hs
    have hm2 := (sortByCountDesc_perm _).mem_iff.mp hm
    rcases List.mem_map.mp hm2 with ⟨g, hg, hrow⟩
    unfold groupRows at hg
    rcases List.mem_map.mp hg with ⟨k, hk, hgk⟩
    refine ⟨k, hk, ?_⟩
    rw [← hrow, ← hgk]

/-- C9 as amended.  For every non-empty record set all of whose message
identifiers and group-key fields are non-null, the per-chat message
counts of the summary table sum to the total message count of the basic
statistics.  (The restriction is forced: the per-chat count is a pandas
`count`, which skips null `message_id` cells, and `groupby` drops rows
with a null key, while `total_messages` is the plain row count.) -/
theorem C9_sum_counts (df : DataFrame) (rows0 : List ChatSummaryRow) (bs : BasicStats)
    (hnn : ∀ r ∈ df.rows, r.record.message_id ≠ .jnull ∧ r.record.chat_id ≠ .jnull
        ∧ r.record.chat_name ≠ .jnull ∧ r.record.chat_type ≠ .jnull)
    (hs : get_chat_summary df = some rows0)
    (hb : get_basic_stats df = some bs) :
    (rows0.map (fun r => r.message_count)).sum = bs.total_messages := by
  have hkeep : df.rows.filter keyNotNull = df.rows := by
    apply List.filter_eq_self.mpr
    intro r hr
    obtain ⟨h1, h2, h3, h4⟩ := hnn r hr
    simp [keyNotNull, isNull_eq_false h2, isNull_eq_false h3, isNull_eq_false h4]
  have hbs : bs.total_messages = df.rows.length := by
    unfold get_basic_stats at hb
    by_cases he : df.rows.isEmpty = true
    · rw [if_pos he] at hb; simp at hb
    · rw [if_neg he] at hb
      cases hb
      rfl
  unfold get_chat_summary at hs
  by_cases he : df.rows.isEmpty = true
  · rw [if_pos he] at hs; simp at hs
  · rw [if_neg he] at hs
    cases hs
    rw [hbs]
    rw [((sortByCountDesc_perm
      ((groupRows df).map (fun g => mkChatSummaryRow g.1 g.2))).map
        (fun r => r.message_count)).sum_eq]
    unfold groupRows
    rw [hkeep, List.map_map, List.map_map]
    have hcong : ∀ k ∈ (df.rows.map rowKey).dedup,
        (((fun r => r.message_count) ∘ (fun g => mkChatSummaryRow g.1 g.2)) ∘
          (fun k => (k, df.rows.filter (fun r => rowKey r == k)))) k
        = (df.rows.filter (fun r => rowKey r == k)).length := by
      intro k _
      show ((df.rows.filter (fun r => rowKey r == k)).filter
        (fun r => !isNull r.record.message_id)).length = _
      congr 1
      apply List.filter_eq_self.mpr
      intro r hr
      have hrmem : r ∈ df.rows := (List.mem_filter.mp hr).1
      simp [isNull_eq_false (hnn r hrmem).1]
    rw [List.map_congr_left hcong]
    exact sum_group_counts rowKey _ df.rows (List.nodup_dedup _)
      (fun a ha => List.mem_dedup.mpr (List.mem_map_of_mem _ ha))

/-- C3 as amended.  The day spans are floors of timestamp differences,
not calendar-date differences: `total_days` is
`floor((max_ts - min_ts) / day) + 1`, each summary row's `first_message`
and `last_message` are the min and max timestamp of exactly the records
carrying that row's (chat id, chat name, chat type) key, `days_active` is
`floor((last_message - first_message) / day) + 1`, and `messages_per_day`
is `message_count / days_active` rounded to 2 decimal places. -/
theorem C3_day_spans (df : DataFrame) (bs : BasicStats) (rows0 : List ChatSummaryRow)
    (hb : get_basic_stats df = some bs) (hs : get_chat_summary df = some rows0) :
    bs.total_days = (dfMaxDatetime df - dfMinDatetime df) / 86400 + 1
    ∧ ∀ row ∈ rows0,
        row.first_message = rowsMinDT ((df.rows.filter keyNotNull).filter
          (fun r => rowKey r == (row.chat_id, row.chat_name, row.chat_type)))
        ∧ row.last_message = rowsMaxDT ((df.rows.filter keyNotNull).filter
          (fun r => rowKey r == (row.chat_id, row.chat_name, row.chat_type)))
        ∧ row.days_active = (row.last_message - row.first_message) / 86400 + 1
        ∧ row.messages_per_day
            = round2 ((row.message_count : Rat) / (row.days_active : Rat)) := by
  constructor
  · unfold get_basic_stats at hb
    by_cases he : df.rows.isEmpty = true
    · rw [if_pos he] at hb; simp at hb
    · rw [if_neg he] at hb
      cases hb
      rfl
  · intro row hrow
    obtain ⟨k, hk, hrw⟩ := get_chat_summary_mem df rows0 row hs hrow
    obtain ⟨k1, k2, k3⟩ := k
    subst hrw
    exact ⟨rfl, rfl, rfl, rfl⟩

/-- C3 counterexample.  On two records 23:00 day 0 and 01:00 day 1 (two
distinct calendar dates less than 24 hours apart), the claim's inclusive
calendar-date difference is 2 days, but the code computes the floored
timestamp difference `(max - min).days + 1 = 0 + 1 = 1` for both
`total_days` and `days_active`. -/
theorem C3_counterexample :
    (get_basic_stats exDfC3).map (fun b => b.total_days) = some 1
    ∧ date_only 90000 - date_only 82800 + 1 = 2
    ∧ (get_chat_summary exDfC3).map (fun rows => rows.map (fun r => r.days_active))
        = some [1] := by
  refine ⟨?_, ?_, ?_⟩ <;> decide

/-- C9 counterexample.  With a null message identifier on one of two
records of the same chat, the summary's per-chat count (a pandas
`count`, which skips nulls) sums to 1 while `total_messages` (the row
count) is 2. -/
theorem C9_counterexample :
    (get_chat_summary exDfC9).map (fun rows => (rows.map (fun r => r.message_count)).sum)
        = some 1
    ∧ (get_basic_stats exDfC9).map (fun b => b.total_messages) = some 2 := by
  refine ⟨?_, ?_⟩ <;> decide

/-- Witness for C9's amended sum property on a concrete two-record
frame. -/
theorem C9_sum_counts_witness :
    (([exSummaryC3].map (fun r => r.message_count)).sum = exBasicC3.total_messages) :=
  C9_sum_counts exDfC3 [exSummaryC3] exBasicC3 (by decide) (by rfl) (by rfl)

/-- Witness for C3's amended day-span formulas on a concrete two-record
frame. -/
theorem C3_day_spans_witness :
    exBasicC3.total_days = (dfMaxDatetime exDfC3 - dfMinDatetime exDfC3) / 86400 + 1
    ∧ exSummaryC3.days_active
        = (exSummaryC3.last_message - exSummaryC3.first_message) / 86400 + 1
    ∧ exSummaryC3.messages_per_day
        = round2 ((exSummaryC3.message_count : Rat) / (exSummaryC3.days_active : Rat)) := by
  have h := C3_day_spans exDfC3 exBasicC3 [exSummaryC3] (by rfl) (by rfl)
  have h2 := h.2 exSummaryC3 (List.mem_singleton.mpr rfl)
  exact ⟨h.1, h2.2.2.1, h2.2.2.2⟩
